import Mathlib

/-!
# Verification of the dm-ticket acquisition core (`src/ticket.rs`)

This file gives a shallow embedding of the control flow of `DmTicket`
(`src/ticket.rs`): the retry-interval scheduler inside
`multiple_buy_attempts`, the bounded purchase burst itself, the dispatch
logic of `run`, the countdown loop of `wait_for_buy`, the viewer-marking
step of `submit_order`, and the inventory poller `pick_up_leaks`.

Machine integers (`u64`) are modelled as `Nat` with underflow made
explicit: a subtraction that would go below zero is returned as `none`
(in a debug build the Rust code aborts there; in release the value wraps
to a number near 2^64, which the surrounding code then treats as a sleep
duration).  Network effects are modelled as oracles: a *trace* assigns to
every attempt index the observed outcome of `buy` together with the
wall-clock duration the attempt consumed.
-/

namespace DmTicketModel

/-- Modelled from the spec (§4.1 ErrorClassifier): the source classifies a
gateway failure by substring-matching the rendered error against the
display strings of `DmApiError` (`error.rs`, not part of the sources
here).  The three kinds driving control flow in `ticket.rs` are
`SystemBusy`, `ProductExpired` (spelled `ProductEpired` in the source)
and everything else. -/
inductive ErrKind
  | systemBusy
  | productExpired
  | other
deriving DecidableEq, Repr

/-- Outcome of one call to `DmTicket::buy` (`ticket.rs` lines 242-279):
`success` is `Ok(true)` (submission accepted), `rejected` is `Ok(false)`
(remote-reported submission failure), `failed k` is `Err(e)` whose
rendering classifies as `k`. -/
inductive AttemptResult
  | success
  | rejected
  | failed (k : ErrKind)
deriving DecidableEq, Repr

/-- `RETRY_INTERVAL_MS` from `ticket.rs` line 28. -/
def RETRY_INTERVAL_MS : Nat := 100

/-- The retry interval computed between burst attempts
(`ticket.rs` lines 331-336):

```
let retry_interval = if attempt % 2 == 0 {
    RETRY_INTERVAL_MS
} else {
    (((attempt+1) / 2) as u64) * 5500 - _run_time - min_time
};
```

The odd branch subtracts in `u64` with no clamp; `none` models the
underflow (abort in a debug build, wrap in release). -/
def nextInterval (attempt run_time min_time : Nat) : Option Nat :=
  if attempt % 2 = 0 then
    some RETRY_INTERVAL_MS
  else if run_time + min_time ≤ ((attempt + 1) / 2) * 5500 then
    some (((attempt + 1) / 2) * 5500 - run_time - min_time)
  else
    none

/-- How `multiple_buy_attempts` (`ticket.rs` lines 307-325) reacts to one
`buy` outcome: `Ok(true)` returns `Ok(true)`; an error whose rendering
contains `ProductEpired` or `SystemBusy` is returned as-is; `Ok(false)`
and any other error fall through to the retry bookkeeping (`none`). -/
def attemptTerminal : AttemptResult → Option (Except ErrKind Bool)
  | .success => some (Except.ok true)
  | .failed .productExpired => some (Except.error ErrKind.productExpired)
  | .failed .systemBusy => some (Except.error ErrKind.systemBusy)
  | .rejected => none
  | .failed .other => none

deriving instance DecidableEq for Except

/-- Result of a whole burst: how many `buy` calls were issued, and the
value returned — `none` when the run aborted inside the interval
arithmetic (u64 underflow) instead of returning. -/
structure MbaResult where
  attempts : Nat
  outcome : Option (Except ErrKind Bool)
deriving DecidableEq, Repr

/-- The loop body of `multiple_buy_attempts` (`ticket.rs` lines 305-341),
unrolled from attempt index `attempt` with `fuel` iterations left and
accumulators `run_time` (`_run_time`) and `min_time`.  Each iteration:
run `buy` (its outcome and duration come from `trace`); on a terminal
outcome return it; otherwise add the duration to `_run_time`, lower
`min_time`, compute the retry interval, add it to `_run_time`, sleep,
continue. -/
def mbaFrom (trace : Nat → AttemptResult × Nat) :
    Nat → Nat → Nat → Nat → MbaResult
  | 0, _, _, _ => ⟨0, some (Except.ok false)⟩
  | fuel + 1, attempt, run_time, min_time =>
    match attemptTerminal (trace attempt).1 with
    | some r => ⟨1, some r⟩
    | none =>
      let elapsed := (trace attempt).2
      let rt := run_time + elapsed
      let mt := min min_time elapsed
      match nextInterval attempt rt mt with
      | none => ⟨1, none⟩
      | some iv =>
        let r := mbaFrom trace fuel (attempt + 1) (rt + iv) mt
        ⟨r.attempts + 1, r.outcome⟩

/-- `multiple_buy_attempts` (`ticket.rs` lines 292-343): a burst of
`retry_times` attempts starting with `_run_time = 0` and
`min_time = 9999`. -/
def multiple_buy_attempts (retry_times : Nat)
    (trace : Nat → AttemptResult × Nat) : MbaResult :=
  mbaFrom trace retry_times 0 0 9999

/-- The accumulator pair (`_run_time`, `min_time`) as it stands when the
loop reaches attempt `j`, assuming every earlier attempt fell through to
the retry bookkeeping.  On an underflowing interval the `getD 0` is a
junk value; all lemmas below use this state only below the first
underflow. -/
def burstState (trace : Nat → AttemptResult × Nat) : Nat → Nat × Nat
  | 0 => (0, 9999)
  | j + 1 =>
    let s := burstState trace j
    let elapsed := (trace j).2
    let rt := s.1 + elapsed
    let mt := min s.2 elapsed
    (rt + (nextInterval j rt mt).getD 0, mt)

/-- The interval arithmetic after attempt `j` stays inside `u64`
(no underflow), given the accumulator state the burst actually reaches. -/
def stepOk (trace : Nat → AttemptResult × Nat) (j : Nat) : Bool :=
  (nextInterval j ((burstState trace j).1 + (trace j).2)
      (min (burstState trace j).2 (trace j).2)).isSome

example : nextInterval 0 12345 7 = some 100 := by decide
example : nextInterval 1 100 100 = some 5300 := by decide
example : nextInterval 1 5600 100 = none := by decide
example :
    multiple_buy_attempts 2 (fun _ => (AttemptResult.rejected, 50)) =
      ⟨2, some (Except.ok false)⟩ := by decide
example :
    multiple_buy_attempts 3 (fun _ => (AttemptResult.failed ErrKind.other, 6000)) =
      ⟨2, none⟩ := by decide
example :
    multiple_buy_attempts 3
      (fun j => if j = 1 then (AttemptResult.success, 50) else (AttemptResult.rejected, 50)) =
      ⟨2, some (Except.ok true)⟩ := by decide

/-! ## The dispatch logic of `run` (`ticket.rs` lines 346-499)

Identity/catalog/session resolution (lines 347-427) only aborts the run
on failure; the claims below are about what happens after the timestamps
are known, so the embedding starts at the `current_timestamp >
start_timestamp` dispatch (line 432).  The results of the two
`wait_for_buy` calls are oracles (their internals are modelled
separately); the immediate-buy burst is computed from its trace through
`multiple_buy_attempts`. -/

/-- What `wait_for_buy` returned, as observed by `run`: `cancelled` is
the CTRL-C error (its rendering contains `退出`, line 480); `burstErr`
is an error propagated out of the burst it started. -/
inductive WaitErr
  | cancelled
  | burstErr (k : ErrKind)
deriving DecidableEq, Repr

/-- Observable outcome of one `run`: whether `pick_up_leaks` was invoked,
whether the external re-authentication helper was spawned (lines
450-465), and whether a burst reported a successful purchase before the
run returned. -/
structure RunResult where
  leaks : Bool
  reauth : Bool
  success : Bool
deriving DecidableEq, Repr

/-- The dispatch of `run` (`ticket.rs` lines 429-498).  `now` is
`current_timestamp`, `start` the (possibly overridden) sale-open
timestamp, `graceMinutes` is `pick_up_leaks.grace_period_minutes` and
`priority` is `priority_purchase_time` (minutes).  On the immediate path
(`now > start`) the burst result comes from `multiple_buy_attempts`;
`none` propagates an abort inside the burst's interval arithmetic.

Source shape: `Ok(_)` from `buy_it_now` skips the error handling and
falls through to `Ok(())`; `ProductExpired` within the grace window goes
to `pick_up_leaks`, past it returns; `SystemBusy` spawns the helper and
returns; any other error falls through to `Ok(())`.  On the countdown
path, `Ok(true)` and a `退出` cancellation return; everything else falls
through to the optional priority-purchase wait and then unconditionally
to `pick_up_leaks` (line 495). -/
def run_model (now start graceMinutes priority : Int) (retry_times : Nat)
    (trace : Nat → AttemptResult × Nat)
    (wait1 wait2 : Except WaitErr Bool) : Option RunResult :=
  if start < now then
    match (multiple_buy_attempts retry_times trace).outcome with
    | none => none
    | some (Except.ok b) => some ⟨false, false, b⟩
    | some (Except.error ErrKind.productExpired) =>
      if graceMinutes * 60 * 1000 < now - start then
        some ⟨false, false, false⟩
      else
        some ⟨true, false, false⟩
    | some (Except.error ErrKind.systemBusy) => some ⟨false, true, false⟩
    | some (Except.error ErrKind.other) => some ⟨false, false, false⟩
  else
    match wait1 with
    | Except.ok true => some ⟨false, false, true⟩
    | Except.error WaitErr.cancelled => some ⟨false, false, false⟩
    | _ =>
      if 0 < priority then
        match wait2 with
        | Except.ok true => some ⟨false, false, true⟩
        | _ => some ⟨true, false, false⟩
      else
        some ⟨true, false, false⟩

/-! ## The countdown loop of `wait_for_buy` (`ticket.rs` lines 507-543)

On each timer tick the loop reads the clock and computes
`time_left_millis = start_timestamp - millis`; if that is `<=
earliest_submit_time` it signals readiness (sends on the channel, whose
receipt starts the burst), otherwise it prints the remaining time and
keeps ticking.  `ticks j` is the clock value observed on the `j`-th
tick; the function returns the index of the tick on which readiness was
signalled, `none` if it never was within `fuel` ticks.  Cancellation is
a concurrent `select` branch and is not part of this deterministic
model. -/
def wait_for_buy_signal (start lead : Int) (ticks : Nat → Int) :
    Nat → Nat → Option Nat
  | 0, _ => none
  | fuel + 1, i =>
    if start - ticks i ≤ lead then some i
    else wait_for_buy_signal start lead ticks fuel (i + 1)

/-! ## The viewer-marking step of `submit_order` (`ticket.rs` lines 126-163)

For a `dmViewer_` key the code reads `viewerList`; if it is an array and
non-empty it sets `viewerList[i]["isUsed"] = true` for `i in
0..self.account.ticket.num`.  `serde_json`'s `IndexMut` on an array
aborts on an out-of-range index, so a non-empty list shorter than `num`
is a failure, not a guarded case.  A viewer entry is reduced to its
`isUsed` flag. -/

/-- Set the `isUsed` flag of the first `n` viewer entries; `none` models
the out-of-range index abort when the list has fewer than `n` entries. -/
def markFirst : Nat → List Bool → Option (List Bool)
  | 0, vl => some vl
  | _ + 1, [] => none
  | n + 1, _ :: tl => (markFirst n tl).map (true :: ·)

/-- The part of the order draft that the viewer-selection step of
`submit_order` looks at: the buy count the order was built with (which
`submit_order` never reads) and the `viewerList` field (`none` when it
is not an array). -/
structure OrderDraft where
  builtBuyNum : Nat
  viewerList : Option (List Bool)
deriving DecidableEq, Repr

/-- Viewer selection in `submit_order` (`ticket.rs` lines 128-158): skip
when `viewerList` is not an array or is empty; otherwise mark the first
`accountNum = self.account.ticket.num` entries, aborting (`none`) when
the list is shorter. -/
def submit_order_viewers (accountNum : Nat) (od : OrderDraft) :
    Option OrderDraft :=
  match od.viewerList with
  | none => some od
  | some vl =>
    if vl.isEmpty then some od
    else (markFirst accountNum vl).map
      (fun vl2 => { od with viewerList := some vl2 })

/-! ## The inventory poller `pick_up_leaks` (`ticket.rs` lines 546-593) -/

/-- Rust's `str::contains(pat)`: `pat` occurs as a contiguous substring. -/
def rustStrContains (haystack pat : String) : Bool :=
  decide (pat.data <:+: haystack.data)

/-- One price tier (`sku`) of the perform listing, with the fields
`pick_up_leaks` reads: `sku_salable` is the raw string tested with
`.contains("true")` (line 565), `sku_id`/`item_id` identify the tier,
`price_name` is display-only. -/
structure SkuM where
  sku_id : String
  item_id : String
  sku_salable : String
  price_name : String
deriving DecidableEq, Repr

/-- The perform listing returned by `get_perform_info`. -/
structure PerformM where
  perform_id : String
  sku_list : List SkuM
deriving DecidableEq, Repr

/-- The tier filter of `pick_up_leaks` (`ticket.rs` lines 565-568): the
tier at 0-based index `idx` matches when its `sku_salable` contains
`"true"` and the configured grade set is empty or contains the 1-based
`grade_idx = idx + 1`. -/
def tierMatches (grades : List Nat) (idx : Nat) (sku : SkuM) : Bool :=
  rustStrContains sku.sku_salable "true" &&
    (grades.isEmpty || grades.contains (idx + 1))

/-- The inner scan of one poll cycle (`ticket.rs` lines 561-585): walk
`sku_list` in listing order starting at index `idx` and return the first
matching tier with its index. -/
def findLeakTierAux (grades : List Nat) :
    List SkuM → Nat → Option (Nat × SkuM)
  | [], _ => none
  | sku :: rest, idx =>
    if tierMatches grades idx sku then some (idx, sku)
    else findLeakTierAux grades rest (idx + 1)

/-- The arguments `pick_up_leaks` passes to `multiple_buy_attempts`. -/
structure BuyCall where
  item_id : String
  sku_id : String
  buy_num : Nat
deriving DecidableEq, Repr

/-- The nested burst call a poll cycle makes on a match (`ticket.rs`
lines 571-577): the first argument is `perform_info.perform.perform_id`,
the second the matched tier's `sku_id`, and the buy count is
`pick_up_leaks.num` unless that is `0`, in which case it is the
account's `ticket.num` (lines 553-556). -/
def leaksCycleCall (accountNum cfgNum : Nat) (grades : List Nat)
    (perform : PerformM) : Option BuyCall :=
  (findLeakTierAux grades perform.sku_list 0).map
    (fun m => ⟨perform.perform_id, m.2.sku_id,
               if cfgNum = 0 then accountNum else cfgNum⟩)

/-- The poll loop of `pick_up_leaks` (`ticket.rs` lines 558-590) from
cycle `i` with `fuel` cycles left.  `perf i` is the result of the
per-cycle `get_perform_info` call (`Except.error` discarded by the
`if let Ok`, line 560); `burst i` is the value the nested burst returns
on cycle `i` when a tier matched (`if let Ok`, line 571): `Ok(true)`
returns from `pick_up_leaks`, everything else — `Ok(false)` or any
error, `SystemBusy` included — breaks the tier scan and falls through to
the sleep and the next cycle.  The result records how many cycles ran
and whether a nested burst succeeded; the error component of the
`Except` is never produced, mirroring the absence of any `?` operator in
the source function. -/
def pickUpLeaksLoop (grades : List Nat) (perf : Nat → Except Unit PerformM)
    (burst : Nat → Except ErrKind Bool) :
    Nat → Nat → Except ErrKind (Nat × Bool)
  | 0, i => Except.ok (i, false)
  | fuel + 1, i =>
    match perf i with
    | Except.error _ => pickUpLeaksLoop grades perf burst fuel (i + 1)
    | Except.ok pinfo =>
      match findLeakTierAux grades pinfo.sku_list 0 with
      | none => pickUpLeaksLoop grades perf burst fuel (i + 1)
      | some _ =>
        match burst i with
        | Except.ok true => Except.ok (i + 1, true)
        | _ => pickUpLeaksLoop grades perf burst fuel (i + 1)

/-- `pick_up_leaks` (`ticket.rs` lines 546-593): run `times =
pick_up_leaks.times` poll cycles. -/
def pick_up_leaks (times : Nat) (grades : List Nat)
    (perf : Nat → Except Unit PerformM)
    (burst : Nat → Except ErrKind Bool) : Except ErrKind (Nat × Bool) :=
  pickUpLeaksLoop grades perf burst times 0

example : rustStrContains "true" "true" = true := by decide
example : rustStrContains "false" "true" = false := by decide

/-! ## Loop invariants for `multiple_buy_attempts` -/

lemma burstState_succ (trace : Nat → AttemptResult × Nat) (j : Nat) :
    burstState trace (j + 1) =
      ((burstState trace j).1 + (trace j).2 +
        (nextInterval j ((burstState trace j).1 + (trace j).2)
          (min (burstState trace j).2 (trace j).2)).getD 0,
       min (burstState trace j).2 (trace j).2) := by
  simp only [burstState, Nat.add_comm]

/-- Reaching attempt `i`: when every attempt before `i` falls through to
the retry bookkeeping and none of their interval computations
underflows, the burst equals its own tail started at attempt `i` from
the accumulator state `burstState trace i`, with `i` attempts already
issued. -/
lemma mba_reach (trace : Nat → AttemptResult × Nat) :
    ∀ i fuel : Nat, i ≤ fuel →
      (∀ j, j < i → attemptTerminal (trace j).1 = none) →
      (∀ j, j < i → stepOk trace j = true) →
      multiple_buy_attempts fuel trace =
        ⟨(mbaFrom trace (fuel - i) i (burstState trace i).1
            (burstState trace i).2).attempts + i,
         (mbaFrom trace (fuel - i) i (burstState trace i).1
            (burstState trace i).2).outcome⟩ := by
  intro i
  induction i with
  | zero =>
    intro fuel _ _ _
    simp [multiple_buy_attempts, burstState]
  | succ i ih =>
    intro fuel hle hcont hok
    have h2 := ih fuel (by omega) (fun j hj => hcont j (by omega))
      (fun j hj => hok j (by omega))
    rw [h2]
    have hfuel : fuel - i = (fuel - (i + 1)) + 1 := by omega
    rw [hfuel]
    have hterm : attemptTerminal (trace i).1 = none := hcont i (by omega)
    have hstep := hok i (by omega)
    unfold stepOk at hstep
    obtain ⟨iv, hiv⟩ := Option.isSome_iff_exists.mp hstep
    have hbs : burstState trace (i + 1) =
        ((burstState trace i).1 + (trace i).2 + iv,
         min (burstState trace i).2 (trace i).2) := by
      rw [burstState_succ, hiv]
      rfl
    simp only [mbaFrom, hterm, hiv, hbs]
    refine congrArg₂ MbaResult.mk ?_ rfl
    omega

/-- A terminal outcome at attempt `i` (success or a
`ProductExpired`/`SystemBusy`-classified failure) ends the burst there:
exactly `i + 1` attempts are issued and the terminal value is returned. -/
lemma mba_terminal_at (trace : Nat → AttemptResult × Nat) (N i : Nat)
    (r : Except ErrKind Bool) (hiN : i < N)
    (hterm : attemptTerminal (trace i).1 = some r)
    (hcont : ∀ j, j < i → attemptTerminal (trace j).1 = none)
    (hok : ∀ j, j < i → stepOk trace j = true) :
    multiple_buy_attempts N trace = ⟨i + 1, some r⟩ := by
  rw [mba_reach trace i N (by omega) hcont hok]
  have hfuel : N - i = (N - (i + 1)) + 1 := by omega
  rw [hfuel]
  simp only [mbaFrom, hterm]
  refine congrArg₂ MbaResult.mk ?_ rfl
  omega

/-- A burst in which every attempt falls through (submission rejected or
failure classified `Other`) and no interval computation underflows
issues exactly `N` attempts and returns `Ok(false)`. -/
lemma mba_all_other (trace : Nat → AttemptResult × Nat) (N : Nat)
    (hcont : ∀ j, j < N → attemptTerminal (trace j).1 = none)
    (hok : ∀ j, j < N → stepOk trace j = true) :
    multiple_buy_attempts N trace = ⟨N, some (Except.ok false)⟩ := by
  rw [mba_reach trace N N (by omega) hcont hok]
  simp [mbaFrom]

/-! ## Lemmas about the countdown loop -/

/-- The countdown signals readiness on the first tick whose clock value
has reached `start - lead`. -/
lemma wait_signal_finds (start lead : Int) (ticks : Nat → Int) :
    ∀ fuel k i : Nat, k ≤ i → i < k + fuel →
      start - lead ≤ ticks i →
      (∀ j, k ≤ j → j < i → ticks j < start - lead) →
      wait_for_buy_signal start lead ticks fuel k = some i := by
  intro fuel
  induction fuel with
  | zero => intro k i h1 h2 _ _; omega
  | succ fuel ih =>
    intro k i hki hif hready hbefore
    by_cases hk : k = i
    · subst hk
      have hc : start - ticks k ≤ lead := by omega
      simp [wait_for_buy_signal, hc]
    · have hnk : ¬ start - ticks k ≤ lead := by
        have := hbefore k (le_refl k) (by omega)
        omega
      rw [wait_for_buy_signal, if_neg hnk]
      exact ih (k + 1) i (by omega) (by omega) hready
        (fun j hj1 hj2 => hbefore j (by omega) hj2)

/-- The countdown never signals readiness on a tick whose clock value is
still short of `start - lead`. -/
lemma wait_signal_sound (start lead : Int) (ticks : Nat → Int) :
    ∀ fuel k j : Nat, wait_for_buy_signal start lead ticks fuel k = some j →
      start - ticks j ≤ lead := by
  intro fuel
  induction fuel with
  | zero => intro k j h; simp [wait_for_buy_signal] at h
  | succ fuel ih =>
    intro k j h
    rw [wait_for_buy_signal] at h
    by_cases hc : start - ticks k ≤ lead
    · rw [if_pos hc] at h
      cases h
      exact hc
    · rw [if_neg hc] at h
      exact ih (k + 1) j h

/-! ## Lemmas about the viewer-marking step -/

lemma markFirst_of_le (n : Nat) :
    ∀ vl : List Bool, n ≤ vl.length →
      markFirst n vl = some (List.replicate n true ++ vl.drop n) := by
  induction n with
  | zero => intro vl _; simp [markFirst]
  | succ n ih =>
    intro vl h
    cases vl with
    | nil => simp at h
    | cons b tl =>
      simp [markFirst, ih tl (by simpa using h), List.replicate_succ]

lemma markFirst_of_gt (n : Nat) :
    ∀ vl : List Bool, vl.length < n → markFirst n vl = none := by
  induction n with
  | zero => intro vl h; omega
  | succ n ih =>
    intro vl h
    cases vl with
    | nil => simp [markFirst]
    | cons b tl => simp [markFirst, ih tl (by simpa using h)]

/-! ## Lemmas about the inventory poller -/

/-- The tier scan returns the first matching tier. -/
lemma findLeakTierAux_first (grades : List Nat) :
    ∀ (l : List SkuM) (base j : Nat) (sku : SkuM),
      l.get? j = some sku →
      tierMatches grades (base + j) sku = true →
      (∀ k s, k < j → l.get? k = some s →
        tierMatches grades (base + k) s = false) →
      findLeakTierAux grades l base = some (base + j, sku) := by
  intro l
  induction l with
  | nil => intro base j sku h _ _; simp at h
  | cons a rest ih =>
    intro base j sku hget hmatch hfirst
    cases j with
    | zero =>
      simp only [List.get?] at hget
      cases hget
      simp only [Nat.add_zero] at hmatch ⊢
      rw [findLeakTierAux, if_pos hmatch]
    | succ j =>
      have ha : tierMatches grades base a = false := by
        simpa using hfirst 0 a (by omega) (by simp)
      rw [findLeakTierAux, if_neg (by simp [ha])]
      have hrec := ih (base + 1) j sku (by simpa using hget)
        (by rw [show base + 1 + j = base + (j + 1) by omega]; exact hmatch)
        (fun k s hk hks => by
          rw [show base + 1 + k = base + (k + 1) by omega]
          exact hfirst (k + 1) s (by omega) (by simpa using hks))
      rw [hrec]
      rw [show base + 1 + j = base + (j + 1) by omega]

/-- Errors from `get_perform_info` and every non-`Ok(true)` nested-burst
value are discarded: the poll loop runs its full budget and reports no
acquisition. -/
lemma pickUpLeaksLoop_no_success (grades : List Nat)
    (perf : Nat → Except Unit PerformM) (burst : Nat → Except ErrKind Bool) :
    ∀ fuel i : Nat, (∀ k, i ≤ k → k < i + fuel → burst k ≠ Except.ok true) →
      pickUpLeaksLoop grades perf burst fuel i = Except.ok (i + fuel, false) := by
  intro fuel
  induction fuel with
  | zero => intro i _; simp [pickUpLeaksLoop]
  | succ fuel ih =>
    intro i h
    have hnext : pickUpLeaksLoop grades perf burst fuel (i + 1) =
        Except.ok (i + 1 + fuel, false) :=
      ih (i + 1) (fun k hk1 hk2 => h k (by omega) (by omega))
    have harith : i + 1 + fuel = i + (fuel + 1) := by omega
    rw [pickUpLeaksLoop]
    split
    · rw [hnext, harith]
    · split
      · rw [hnext, harith]
      · split
        · rename_i heq
          exact absurd heq (h i (by omega) (by omega))
        · rw [hnext, harith]

/-- The poll loop never produces an error value, whatever its inputs do. -/
lemma pickUpLeaksLoop_isOk (grades : List Nat)
    (perf : Nat → Except Unit PerformM) (burst : Nat → Except ErrKind Bool) :
    ∀ fuel i : Nat, (pickUpLeaksLoop grades perf burst fuel i).isOk = true := by
  intro fuel
  induction fuel with
  | zero => intro i; rfl
  | succ fuel ih =>
    intro i
    rw [pickUpLeaksLoop]
    split
    · exact ih (i + 1)
    · split
      · exact ih (i + 1)
      · split
        · rfl
        · exact ih (i + 1)

/-! ## Claim C1 -/

/-- C1 (code bug): the claim says the odd-attempt interval equals
`ceil((i+1)/2)*5500 − cumulativeElapsed − minObserved` *clamped at
zero*, never failing or wrapping past the 5.5s boundary.  The source has
no clamp: at attempt index 1 with `_run_time = 5600` and `min_time =
100` the `u64` subtraction `5500 − 5600 − 100` underflows (abort in a
debug build, wrap to a near-2^64 sleep in release) instead of yielding
0.  The even branch does return the fixed 100ms. -/
theorem c1_interval_underflow_bug :
    nextInterval 1 5600 100 = none ∧ nextInterval 2 5600 100 = some 100 := by
  constructor <;> decide

/-! ## Claim C2 -/

/-- C2 (corrected): an attempt whose failure is classified
`ProductExpired` ends the burst on the spot: the error is returned to
the caller and exactly `i + 1` attempts have been issued — no attempt
after it.  (The claim's parenthetical "fewer than burstSize attempts
occur" fails when the expired attempt is the last one, see the
counterexample.)  The hypotheses say attempt `i` is reached: every
earlier attempt fell through to the retry bookkeeping and no earlier
interval computation underflowed. -/
theorem c2_product_expired_aborts_burst
    (N i : Nat) (trace : Nat → AttemptResult × Nat)
    (hiN : i < N)
    (hpe : (trace i).1 = AttemptResult.failed ErrKind.productExpired)
    (hprev : ∀ j, j < i → attemptTerminal (trace j).1 = none)
    (hok : ∀ j, j < i → stepOk trace j = true) :
    multiple_buy_attempts N trace =
      ⟨i + 1, some (Except.error ErrKind.productExpired)⟩ :=
  mba_terminal_at trace N i _ hiN (by rw [hpe]; rfl) hprev hok

/-- Trace for the C2 artefacts: attempt 0 fails classified `Other`
(retried), every later attempt fails classified `ProductExpired`. -/
def c2Trace : Nat → AttemptResult × Nat :=
  fun j => if j = 0 then (AttemptResult.failed ErrKind.other, 50)
           else (AttemptResult.failed ErrKind.productExpired, 50)

/-- C2 counterexample to the claim as stated: with `burstSize = 2` and
`ProductExpired` on the final attempt, the burst does terminate with the
error, but exactly 2 = burstSize attempts occur — not fewer. -/
theorem c2_counterexample :
    multiple_buy_attempts 2 c2Trace =
      ⟨2, some (Except.error ErrKind.productExpired)⟩ ∧ ¬(2 < 2) := by
  constructor <;> decide

/-- C2 witness: `ProductExpired` on attempt 1 of a 3-attempt burst (after
an `Other` failure that was retried) returns the error after exactly 2
attempts. -/
theorem c2_witness :
    (1 < 3 ∧ (c2Trace 1).1 = AttemptResult.failed ErrKind.productExpired) ∧
      multiple_buy_attempts 3 c2Trace =
        ⟨2, some (Except.error ErrKind.productExpired)⟩ :=
  ⟨⟨by decide, by decide⟩,
   c2_product_expired_aborts_burst 3 1 c2Trace (by decide) (by decide)
     (by decide) (by decide)⟩

/-! ## Claim C3 -/

/-- C3 (confirmed): on the first attempt whose submission succeeds the
burst returns `Ok(true)` immediately, having issued exactly `i + 1`
`buy` calls (hence no build or submit call after the successful one).
The hypotheses say attempt `i` is the first success: every earlier
attempt fell through (rejected submission or `Other` failure) and no
earlier interval computation underflowed. -/
theorem c3_first_success_stops_burst
    (N i : Nat) (trace : Nat → AttemptResult × Nat)
    (hiN : i < N)
    (hsucc : (trace i).1 = AttemptResult.success)
    (hprev : ∀ j, j < i → attemptTerminal (trace j).1 = none)
    (hok : ∀ j, j < i → stepOk trace j = true) :
    multiple_buy_attempts N trace = ⟨i + 1, some (Except.ok true)⟩ :=
  mba_terminal_at trace N i _ hiN (by rw [hsucc]; rfl) hprev hok

/-- Trace for the C3 witness: submission rejected on attempt 0, accepted
on attempt 1. -/
def c3Trace : Nat → AttemptResult × Nat :=
  fun j => if j = 1 then (AttemptResult.success, 40)
           else (AttemptResult.rejected, 60)

/-- C3 witness: success on attempt 1 of a 4-attempt burst returns
`Ok(true)` after exactly 2 attempts. -/
theorem c3_witness :
    (1 < 4 ∧ (c3Trace 1).1 = AttemptResult.success) ∧
      multiple_buy_attempts 4 c3Trace = ⟨2, some (Except.ok true)⟩ :=
  ⟨⟨by decide, by decide⟩,
   c3_first_success_stops_burst 4 1 c3Trace (by decide) (by decide)
     (by decide) (by decide)⟩

/-! ## Claim C4 -/

/-- Trace for the C4 counterexample: every attempt fails classified
`Other` and takes 6 seconds, pushing `_run_time` past the 5.5s cycle
boundary. -/
def c4Trace : Nat → AttemptResult × Nat :=
  fun _ => (AttemptResult.failed ErrKind.other, 6000)

/-- C4 counterexample to the claim as stated: a burst of 3 attempts all
failing with `Other`, each 6000ms long, issues only 2 attempts and then
aborts in the interval arithmetic (u64 underflow) instead of issuing 3
attempts and returning `false`. -/
theorem c4_counterexample :
    multiple_buy_attempts 3 c4Trace = ⟨2, none⟩ ∧
      multiple_buy_attempts 3 c4Trace ≠ ⟨3, some (Except.ok false)⟩ := by
  constructor <;> decide

/-- C4 (corrected): a burst of `N` attempts all failing with `Other`
issues exactly `N` attempts and returns the non-error value `false`,
*provided* none of the between-attempt interval computations underflows
(`stepOk`); an underflowing odd-attempt interval instead aborts the
burst at that point (see the counterexample). -/
theorem c4_all_other_exhausts_burst
    (N : Nat) (trace : Nat → AttemptResult × Nat)
    (hother : ∀ j, j < N → (trace j).1 = AttemptResult.failed ErrKind.other)
    (hok : ∀ j, j < N → stepOk trace j = true) :
    multiple_buy_attempts N trace = ⟨N, some (Except.ok false)⟩ :=
  mba_all_other trace N (fun j hj => by rw [hother j hj]; rfl) hok

/-- Trace for the C4 witness: every attempt fails classified `Other` in
50ms, so no interval underflows. -/
def c4GoodTrace : Nat → AttemptResult × Nat :=
  fun _ => (AttemptResult.failed ErrKind.other, 50)

/-- C4 witness: a 2-attempt burst of fast `Other` failures issues both
attempts and returns `Ok(false)`. -/
theorem c4_witness :
    multiple_buy_attempts 2 c4GoodTrace = ⟨2, some (Except.ok false)⟩ :=
  c4_all_other_exhausts_burst 2 c4GoodTrace (by decide) (by decide)

/-! ## Claim C5 -/

/-- C5 (corrected, restricted to the immediate-buy path): when the sale
is already open (`start < now`) and the burst exhausts all its attempts
with `Other` failures, `run` reaches its terminal state with no
success, no re-authentication helper, and `pick_up_leaks` is never
invoked.  (On the countdown path the source instead falls through to
`pick_up_leaks` unconditionally — see the counterexample.) -/
theorem c5_immediate_exhaustion_no_leaks
    (now start graceMinutes priority : Int) (N : Nat)
    (trace : Nat → AttemptResult × Nat) (wait1 wait2 : Except WaitErr Bool)
    (hnow : start < now)
    (hother : ∀ j, j < N → (trace j).1 = AttemptResult.failed ErrKind.other)
    (hok : ∀ j, j < N → stepOk trace j = true) :
    run_model now start graceMinutes priority N trace wait1 wait2 =
      some ⟨false, false, false⟩ := by
  have hmba := mba_all_other trace N
    (fun j hj => by rw [hother j hj]; rfl) hok
  simp only [run_model, if_pos hnow, hmba]

/-- Trace used by the C5 artefacts: every attempt fails classified
`Other` in 50ms. -/
def c5Trace : Nat → AttemptResult × Nat :=
  fun _ => (AttemptResult.failed ErrKind.other, 50)

/-- C5 counterexample to the claim as stated: on the countdown path
(`now ≤ start`), after the countdown's burst exhausts without success
(`wait1 = Ok(false)`) and with no priority-purchase window, `run`
invokes `pick_up_leaks` even though no failure was classified
`ProductExpired`. -/
theorem c5_counterexample :
    run_model 0 100 0 0 1 c5Trace (Except.ok false) (Except.ok false) =
      some ⟨true, false, false⟩ := by
  decide

/-- C5 witness: sale open (`now = 10 > start = 0`), a 1-attempt burst
failing with `Other` → terminal, no leaks polling, no re-auth, no
success. -/
theorem c5_witness :
    run_model 10 0 0 0 1 c5Trace (Except.ok false) (Except.ok false) =
      some ⟨false, false, false⟩ :=
  c5_immediate_exhaustion_no_leaks 10 0 0 0 1 c5Trace
    (Except.ok false) (Except.ok false) (by decide) (by decide) (by decide)

/-! ## Claim C6 -/

/-- C6 (corrected): when a poll cycle matches a tier (the first salable
and eligible one), the nested burst is run with the *performance's*
`perform_id` as the item-id argument — not the matched tier's resolved
`item_id` as the claim states — together with the matched tier's
`sku_id`, and with buy count `pick_up_leaks.num` when nonzero, else the
account's default. -/
theorem c6_leaks_burst_call
    (accountNum cfgNum : Nat) (grades : List Nat) (perform : PerformM)
    (j : Nat) (sku : SkuM)
    (hget : perform.sku_list.get? j = some sku)
    (hmatch : tierMatches grades j sku = true)
    (hfirst : ∀ k s, k < j → perform.sku_list.get? k = some s →
      tierMatches grades k s = false) :
    leaksCycleCall accountNum cfgNum grades perform =
      some ⟨perform.perform_id, sku.sku_id,
            if cfgNum = 0 then accountNum else cfgNum⟩ := by
  have hf := findLeakTierAux_first grades perform.sku_list 0 j sku hget
    (by simpa using hmatch)
    (fun k s hk hks => by simpa using hfirst k s hk hks)
  simp only [Nat.zero_add] at hf
  simp only [leaksCycleCall, hf, Option.map_some']

/-- Tier listing for the C6 counterexample: one salable tier whose
`item_id` differs from the performance id. -/
def c6Perform : PerformM :=
  ⟨"perform-9", [⟨"sku-1", "item-1", "true", "tierA"⟩]⟩

/-- C6 counterexample to the claim as stated: the matched tier's
`item_id` is `"item-1"`, but the nested burst is called with the
performance id `"perform-9"` as its item-id argument. -/
theorem c6_counterexample :
    leaksCycleCall 2 0 [] c6Perform = some ⟨"perform-9", "sku-1", 2⟩ ∧
      (c6Perform.sku_list.get? 0).map SkuM.item_id = some "item-1" ∧
      "perform-9" ≠ "item-1" := by
  refine ⟨by decide, by decide, by decide⟩

/-- Tier listing for the C6 witness: tier 1 is not salable, tier 2 is
salable. -/
def c6wPerform : PerformM :=
  ⟨"perform-w", [⟨"sku-a", "item-a", "false", "tier1"⟩,
                 ⟨"sku-b", "item-b", "salable:true", "tier2"⟩]⟩

/-- C6 witness: with an empty grade filter and override buy count 0, the
matched tier is the second one and the burst call carries the
performance id, that tier's sku id, and the account's default count. -/
theorem c6_witness :
    leaksCycleCall 4 0 [] c6wPerform = some ⟨"perform-w", "sku-b", 4⟩ :=
  c6_leaks_burst_call 4 0 [] c6wPerform 1 ⟨"sku-b", "item-b", "salable:true", "tier2"⟩
    (by decide) (by decide)
    (fun k s hk hks => by
      have hk0 : k = 0 := by omega
      subst hk0
      simp only [c6wPerform, List.get?] at hks
      cases hks
      decide)

/-! ## Claim C7 -/

/-- C7 (confirmed): the countdown signals readiness exactly on the first
tick whose clock value `now` satisfies `now ≥ start − lead`
(equivalently `start − now ≤ lead`, the source's test), and on no tick
before it; until then the loop only reports the remaining time and keeps
ticking.  `hbefore` says every earlier tick was still short of the
threshold, so the returned index is the first ready tick and no not-yet-
ready tick is ever the signalling one. -/
theorem c7_countdown_signals_first_ready
    (start lead : Int) (ticks : Nat → Int) (fuel i : Nat)
    (hif : i < fuel)
    (hready : start - lead ≤ ticks i)
    (hbefore : ∀ j, j < i → ticks j < start - lead) :
    wait_for_buy_signal start lead ticks fuel 0 = some i :=
  wait_signal_finds start lead ticks fuel 0 i (by omega) (by omega) hready
    (fun j _ hj => hbefore j hj)

/-- C7 witness: sale-open 100, lead 10, clock 80, 85, 90, 95 on
successive ticks — readiness is signalled on tick 2, the first with
`now ≥ 90`. -/
theorem c7_witness :
    wait_for_buy_signal 100 10 (fun j => 80 + 5 * (j : Int)) 4 0 = some 2 :=
  c7_countdown_signals_first_ready 100 10 (fun j => 80 + 5 * (j : Int)) 4 2
    (by omega) (by decide) (by decide)

/-! ## Claim C9 -/

/-- C9 (confirmed): the viewer-selection step of `submit_order` marks
the first `account.ticket.num` entries of a non-empty `viewerList` as
used, independently of the buy count the order was built with (the
result's `viewerList` is the same for any `builtBuyNum`); and it
presupposes the list holds at least `account.ticket.num` entries — with
a shorter non-empty list the out-of-range index assignment aborts
(`none`), it is not a guarded case. -/
theorem c9_viewer_marking
    (accountNum b b2 : Nat) (vl : List Bool) (hne : vl ≠ []) :
    (submit_order_viewers accountNum ⟨b, some vl⟩).map OrderDraft.viewerList =
      (submit_order_viewers accountNum ⟨b2, some vl⟩).map OrderDraft.viewerList ∧
    submit_order_viewers accountNum ⟨b, some vl⟩ =
      (if accountNum ≤ vl.length then
        some ⟨b, some (List.replicate accountNum true ++ vl.drop accountNum)⟩
      else none) := by
  have hne' : vl.isEmpty = false := by
    cases vl with
    | nil => exact absurd rfl hne
    | cons a tl => rfl
  have hG : ∀ c : Nat, submit_order_viewers accountNum ⟨c, some vl⟩ =
      if accountNum ≤ vl.length then
        some ⟨c, some (List.replicate accountNum true ++ vl.drop accountNum)⟩
      else none := by
    intro c
    by_cases hlen : accountNum ≤ vl.length
    · simp only [submit_order_viewers, hne', Bool.false_eq_true, if_false,
        markFirst_of_le accountNum vl hlen, Option.map_some', if_pos hlen]
    · simp only [submit_order_viewers, hne', Bool.false_eq_true, if_false,
        markFirst_of_gt accountNum vl (by omega), Option.map_none',
        if_neg hlen]
  refine ⟨?_, hG b⟩
  rw [hG b, hG b2]
  by_cases hlen : accountNum ≤ vl.length <;> simp [hlen]

/-- C9 witness: with `account.ticket.num = 2`, orders built with buy
counts 3 and 7 get the same marked list `[true, true, false]` out of
`[false, false, false]`; and a non-empty two-slot subcase is covered by
the `if`: with the same `num = 2` a one-entry list yields `none`
(abort).  Both parts instantiate the marking equation. -/
theorem c9_witness :
    ([false, false, false] ≠ ([] : List Bool)) ∧
    (submit_order_viewers 2 ⟨3, some [false, false, false]⟩).map OrderDraft.viewerList =
      (submit_order_viewers 2 ⟨7, some [false, false, false]⟩).map OrderDraft.viewerList ∧
    submit_order_viewers 2 ⟨3, some [false, false, false]⟩ =
      (if 2 ≤ [false, false, false].length then
        some ⟨3, some (List.replicate 2 true ++ [false, false, false].drop 2)⟩
      else none) :=
  ⟨by decide,
   (c9_viewer_marking 2 3 7 [false, false, false] (by decide)).1,
   (c9_viewer_marking 2 3 7 [false, false, false] (by decide)).2⟩

/-! ## Claim C10 -/

/-- C10 (confirmed): `pick_up_leaks` never returns an error, whatever
the tier-listing query and the nested bursts do; and when no nested
burst reports success — in particular when bursts return errors,
`SystemBusy` included, or the listing query fails — every configured
poll cycle still runs and the poller returns cleanly with no
acquisition. -/
theorem c10_leaks_poller_swallows_errors
    (times : Nat) (grades : List Nat) (perf : Nat → Except Unit PerformM)
    (burst burstAny : Nat → Except ErrKind Bool)
    (hns : ∀ i, i < times → burst i ≠ Except.ok true) :
    (pick_up_leaks times grades perf burstAny).isOk = true ∧
    pick_up_leaks times grades perf burst = Except.ok (times, false) := by
  refine ⟨pickUpLeaksLoop_isOk grades perf burstAny times 0, ?_⟩
  have h := pickUpLeaksLoop_no_success grades perf burst times 0
    (fun k _ hk2 => hns k (by omega))
  rw [pick_up_leaks, h]
  simp

/-- Tier listing for the C10 witness: a single salable tier. -/
def c10Perform : PerformM :=
  ⟨"perform-c10", [⟨"sku-c10", "item-c10", "true", "tier1"⟩]⟩

/-- Listing-query oracle for the C10 witness: the first cycle's query
fails, the second succeeds with a matching tier. -/
def c10Perf : Nat → Except Unit PerformM :=
  fun i => if i = 0 then Except.error () else Except.ok c10Perform

/-- Nested-burst oracle for the C10 witness: every burst fails with
`SystemBusy`. -/
def c10Burst : Nat → Except ErrKind Bool :=
  fun _ => Except.error ErrKind.systemBusy

/-- Nested-burst oracle for the C10 witness's unconditional part. -/
def c10BurstAny : Nat → Except ErrKind Bool :=
  fun _ => Except.ok true

/-- C10 witness: with the first listing query failing and every nested
burst failing with `SystemBusy`, both poll cycles run and the poller
returns `Ok` with no acquisition; the unconditional part is instantiated
with an always-succeeding burst. -/
theorem c10_witness :
    (pick_up_leaks 2 [] c10Perf c10BurstAny).isOk = true ∧
    pick_up_leaks 2 [] c10Perf c10Burst = Except.ok (2, false) :=
  c10_leaks_poller_swallows_errors 2 [] c10Perf c10Burst c10BurstAny
    (by decide)

end DmTicketModel
